import Mathlib

/-!
Verification of the psykit stereo-compositing subsystem (`psykit/stereomode.py`
and `psykit/vpixx.py`) against its natural-language specification.

Pixel colors and cross-talk coefficients are modelled as rationals (the GLSL
shaders compute on floats; the blend formulas are exact arithmetic with `max`,
so ℚ is a faithful carrier for the algebra the spec talks about).
-/

/-- An RGBA color, as held by a GLSL `vec4` (e.g. the result of `texture2D`). -/
structure RGBA where
  r : ℚ
  g : ℚ
  b : ℚ
  a : ℚ
  deriving DecidableEq

/-- An RGB triple, as held by a GLSL `vec3` (e.g. the `crossTalk` uniform of
`fragCompensated_src`). -/
structure RGB where
  r : ℚ
  g : ℚ
  b : ℚ
  deriving DecidableEq

/-- The stored cross-talk state `StereoWindow._crossTalk`, a 2×3 matrix whose
first row (`le`) holds the left eye's R/G/B coefficients and whose second row
(`re`) holds the right eye's. -/
structure CrossTalkMat where
  le : RGB
  re : RGB
  deriving DecidableEq

/-- The argument accepted by the `crossTalk` setter (`stereomode.py` lines
516-551): `None`, an array-like of size 2, or a 2×3 array. -/
inductive CrossTalkInput where
  | noneInput : CrossTalkInput
  | vec (a b : ℚ) : CrossTalkInput
  | mat (le re : RGB) : CrossTalkInput

/-- `np.maximum(0.0, np.minimum(1.0, x))` applied to one element
(`stereomode.py` lines 550-551). -/
def clamp01 (x : ℚ) : ℚ := max 0 (min 1 x)

/-- Elementwise clamp of one row of the cross-talk matrix. -/
def clampRGB (v : RGB) : RGB := ⟨clamp01 v.r, clamp01 v.g, clamp01 v.b⟩

/-- The matrix stored by the `crossTalk` setter (`stereomode.py` lines 544-551):
`None` becomes `np.zeros([2,3])`; a size-2 input `[a,b]` is broadcast to
`[[a,a,a],[b,b,b]]` via `np.ones([2,3]) * crossTalk.reshape(-1,1)`; then each
row is clamped elementwise to [0,1]. -/
def setCrossTalkMatrix : CrossTalkInput → CrossTalkMat
  | .noneInput => ⟨clampRGB ⟨0, 0, 0⟩, clampRGB ⟨0, 0, 0⟩⟩
  | .vec a b => ⟨clampRGB ⟨a, a, a⟩, clampRGB ⟨b, b, b⟩⟩
  | .mat le re => ⟨clampRGB le, clampRGB re⟩

/-- The four plain-anaglyph anticross modes, in the order the `crossTalk`
setter iterates over them (`stereomode.py` line 552). -/
def anticrossAnaglyphModes : List String :=
  ["red/green-anticross", "green/red-anticross", "red/blue-anticross", "blue/red-anticross"]

/-- The `glUniform2f` writes the `crossTalk` setter issues immediately after
storing the matrix (`stereomode.py` lines 552-557): for each of the four
plain-anaglyph anticross programs it pushes the pair
`(self._crossTalk[0][0], self._crossTalk[1][0])`, i.e. only the R-channel
coefficient of each eye. -/
def setCrossTalkUniformWrites (m : CrossTalkMat) : List (String × (ℚ × ℚ)) :=
  anticrossAnaglyphModes.map (fun mode => (mode, (m.le.r, m.re.r)))

/-- The 3-component `crossTalk` uniform `_blipEyeBuffer` sets at draw time for
the split-screen anticross modes (`stereomode.py` lines 460-461 and 468-469):
the full matrix row of the eye being blipped. -/
def blipAnticrossUniform (m : CrossTalkMat) (eye : String) : RGB :=
  if eye = "left" then m.le else m.re

/-- The fragment shader `fragCompensated_src` used by 'top/bottom-anticross'
and 'bottom/top-anticross' (`stereomode.py` lines 690-704):
`gl_FragColor = max(colorThis - vec4(crossTalk, 0) * colorOther, 0.0)`,
componentwise, with 0 as the fourth component of the coefficient vector. -/
def fragCompensated (crossTalk : RGB) (colorThis colorOther : RGBA) : RGBA :=
  ⟨max (colorThis.r - crossTalk.r * colorOther.r) 0,
   max (colorThis.g - crossTalk.g * colorOther.g) 0,
   max (colorThis.b - crossTalk.b * colorOther.b) 0,
   max (colorThis.a - 0 * colorOther.a) 0⟩

/-- Fragment shader `fragAnaglyph_src['red/green-anticross']`
(`stereomode.py` line 731): the `crossTalk` argument is the 2-component
uniform (x = left-eye coefficient, y = right-eye coefficient). -/
def fragRedGreenAnticross (crossTalk : ℚ × ℚ) (colorLE colorRE : RGBA) : RGBA :=
  ⟨max (colorLE.r - crossTalk.1 * colorRE.g) 0,
   max (colorRE.g - crossTalk.2 * colorLE.r) 0, 0, 1⟩

/-- Fragment shader `fragAnaglyph_src['green/red-anticross']`
(`stereomode.py` line 732). -/
def fragGreenRedAnticross (crossTalk : ℚ × ℚ) (colorLE colorRE : RGBA) : RGBA :=
  ⟨max (colorRE.r - crossTalk.2 * colorLE.g) 0,
   max (colorLE.g - crossTalk.1 * colorRE.r) 0, 0, 1⟩

/-- Fragment shader `fragAnaglyph_src['red/blue-anticross']`
(`stereomode.py` line 733). -/
def fragRedBlueAnticross (crossTalk : ℚ × ℚ) (colorLE colorRE : RGBA) : RGBA :=
  ⟨max (colorLE.r - crossTalk.1 * colorRE.b) 0, 0,
   max (colorRE.b - crossTalk.2 * colorLE.r) 0, 1⟩

/-- Fragment shader `fragAnaglyph_src['blue/red-anticross']`
(`stereomode.py` line 734). -/
def fragBlueRedAnticross (crossTalk : ℚ × ℚ) (colorLE colorRE : RGBA) : RGBA :=
  ⟨max (colorRE.r - crossTalk.2 * colorLE.b) 0, 0,
   max (colorLE.b - crossTalk.1 * colorRE.r) 0, 1⟩

/-- The `stereoMode` property setter (`stereomode.py` lines 263-291): raises
`ValueError` when the requested or the current mode is 'quad-buffered' or
'dual-head' (checked in that order), otherwise stores the requested value,
which the getter then returns. The stored mode is the `.ok` payload. -/
def setStereoMode (cur req : String) : Except String String :=
  if req = "quad-buffered" ∨ cur = "quad-buffered" then
    .error "quad-buffered mode can only be specified during window initiation. Once set, it cannot be changed."
  else if req = "dual-head" ∨ cur = "dual-head" then
    .error "dual-head mode can only be specified during window initiation. Once set, it cannot be changed."
  else
    .ok req

/-- The framebuffer-routing outcome of `StereoWindow.setBuffer`. -/
inductive BufferAction where
  | superSetBuffer (buffer : String) : BufferAction
  | bindDefault : BufferAction
  | bindFBO (eye : String) : BufferAction
  deriving DecidableEq

/-- `StereoWindow.setBuffer` (`stereomode.py` lines 294-329): 'quad-buffered'
delegates to the base class; 'none' binds the default framebuffer regardless
of the `buffer` argument; every other mode binds the left or right eye FBO and
raises `ValueError` for any other selector string. -/
def setBuffer (mode buffer : String) : Except String BufferAction :=
  if mode = "quad-buffered" then .ok (.superSetBuffer buffer)
  else if mode = "none" then .ok .bindDefault
  else if buffer = "left" then .ok (.bindFBO "left")
  else if buffer = "right" then .ok (.bindFBO "right")
  else .error ("Unknown buffer " ++ buffer ++ " requested in StereoWindow.setBuffer")

/-- Observable events of one `StereoWindow.flip` call: `glViewport` calls,
eye-buffer blips, sync-line draws, physical buffer swaps on the primary and
secondary (dual-head) windows, and flip-callback invocations. -/
inductive Ev where
  | viewport (x y w h : Int) : Ev
  | blip (eye : String) : Ev
  | blueLine (eye : String) : Ev
  | swapPrimary : Ev
  | swapSecondary : Ev
  | callback (eye : String) : Ev
  deriving DecidableEq

/-- The keys of `StereoWindow._stereoShaders` as populated in `__init__`
(`stereomode.py` lines 168-201). -/
def stereoShaderKeys : List String :=
  ["red/green", "green/red", "red/blue", "blue/red",
   "red/green-anticross", "green/red-anticross", "red/blue-anticross", "blue/red-anticross",
   "sequential", "side-by-side-compressed", "dual-head",
   "left/right", "right/left",
   "top/bottom", "bottom/top",
   "top/bottom-anticross", "bottom/top-anticross"]

/-- The dictionary lookup `self._stereoShaders[self.stereoMode]` performed at
the top of `_blipEyeBuffer` (`stereomode.py` line 449); a missing key is a
Python `KeyError`. -/
def shaderLookup (mode : String) : Except String Unit :=
  if mode ∈ stereoShaderKeys then .ok () else .error ("KeyError: " ++ mode)

/-- The `sign` lambda of the 'left/right' / 'right/left' branch of `flip`
(`stereomode.py` line 376): positive for the left eye, negative for the right. -/
def eyeSign (eye : String) : Int := if eye = "left" then 1 else -1

/-- Event trace of one `StereoWindow.flip` call (`stereomode.py` lines
341-431), for a window of size `(W, H)` with fixation adjustments
`(offX, offY, verg, tilt)` (in pixels, as cast to int by the code) and
`hasCB` indicating whether a `flipCallback` is registered.
'none' and 'quad-buffered' delegate to the base-class flip (one physical
swap). Every other mode runs the FBO compositing branch matching the mode
string, then the common final physical swap, then the sequential/dual-head
post-swap work. Each blip performs the shader-table lookup of
`_blipEyeBuffer`; a mode string matching no compositing branch reaches the
final swap without any blip. -/
def flipTrace (mode : String) (W H : Nat) (offX offY verg tilt : Int)
    (hasCB : Bool) : Except String (List Ev) :=
  if mode = "none" ∨ mode = "quad-buffered" then .ok [.swapPrimary]
  else do
    let pre ←
      if mode = "side-by-side-compressed" then do
        shaderLookup mode
        shaderLookup mode
        pure [Ev.viewport 0 0 ((W / 2 : Nat) : Int) (H : Int), Ev.blip "left",
              Ev.viewport ((W / 2 : Nat) : Int) 0 ((W / 2 : Nat) : Int) (H : Int),
              Ev.blip "right"]
      else if mode = "left/right" ∨ mode = "right/left" then do
        let e0 := if mode = "left/right" then "left" else "right"
        let e1 := if mode = "left/right" then "right" else "left"
        shaderLookup mode
        shaderLookup mode
        pure [Ev.viewport (offX + eyeSign e0 * verg) (offY + eyeSign e0 * tilt)
                ((W / 2 : Nat) : Int) (H : Int),
              Ev.blip e0,
              Ev.viewport (((W / 2 : Nat) : Int) + offX + eyeSign e1 * verg)
                (offY + eyeSign e1 * tilt) ((W / 2 : Nat) : Int) (H : Int),
              Ev.blip e1]
      else if mode = "top/bottom" ∨ mode = "bottom/top" ∨
          mode = "top/bottom-anticross" ∨ mode = "bottom/top-anticross" then do
        let topEye := if mode = "top/bottom" ∨ mode = "top/bottom-anticross"
          then "left" else "right"
        let bottomEye := if mode = "top/bottom" ∨ mode = "top/bottom-anticross"
          then "right" else "left"
        shaderLookup mode
        shaderLookup mode
        pure [Ev.viewport 0 ((H / 2 : Nat) : Int) (W : Int) ((H / 2 : Nat) : Int),
              Ev.blip topEye,
              Ev.viewport 0 0 (W : Int) ((H / 2 : Nat) : Int),
              Ev.blip bottomEye]
      else if mode = "red/green" ∨ mode = "green/red" ∨ mode = "red/blue" ∨
          mode = "blue/red" ∨ mode = "red/green-anticross" ∨
          mode = "green/red-anticross" ∨ mode = "red/blue-anticross" ∨
          mode = "blue/red-anticross" then do
        shaderLookup mode
        pure [Ev.blip "both"]
      else if mode = "sequential" then do
        shaderLookup mode
        shaderLookup mode
        pure ([Ev.blip "left", Ev.blueLine "left", Ev.swapPrimary] ++
          (if hasCB then [Ev.callback "left"] else []) ++
          [Ev.blip "right", Ev.blueLine "right"])
      else if mode = "dual-head" then do
        shaderLookup mode
        pure [Ev.blip "left", Ev.blueLine "left"]
      else
        pure []
    let post ←
      if mode = "sequential" then
        pure (if hasCB then [Ev.callback "right"] else [])
      else if mode = "dual-head" then do
        shaderLookup mode
        pure ((if hasCB then [Ev.callback "left"] else []) ++
          [Ev.blip "right", Ev.blueLine "right", Ev.swapSecondary] ++
          (if hasCB then [Ev.callback "right"] else []))
      else
        pure []
    pure (pre ++ [Ev.swapPrimary] ++ post)

/-- The widths of the `glViewport` calls in a flip trace, in order. -/
def viewportWidths : Except String (List Ev) → List Int
  | .ok evs => evs.filterMap (fun e =>
      match e with
      | .viewport _ _ w _ => some w
      | _ => none)
  | .error _ => []

/-- Register-level actions issued to the ProPixx device by
`set_polarizer_mode` (`vpixx.py`). -/
inductive Act where
  | setDlp (p : String) : Act
  | setBlueline (b : Bool) : Act
  | setFreeRun (b : Bool) : Act
  | updateCache : Act
  deriving DecidableEq

/-- Outcome of one `set_polarizer_mode` call: the device register writes
actually performed, the window's stereo mode afterwards, and the error raised
(if any). -/
structure PolarizerResult where
  acts : List Act
  winMode : String
  error : Option String
  deriving DecidableEq

/-- Each non-double-height branch of `set_polarizer_mode` first assigns
`win.stereoMode` (which may itself raise, aborting before any register
write) and then issues its four register actions. -/
def polarizerBranch (cur newMode : String) (acts : List Act) : PolarizerResult :=
  match setStereoMode cur newMode with
  | .error e => ⟨[], cur, some e⟩
  | .ok m => ⟨acts, m, none⟩

/-- `set_polarizer_mode(win, pixx, mode)` (`vpixx.py` lines 54-161) for a
window of size `(W, H)` currently in stereo mode `cur`. The 'double-height'
branch first checks `win.size[1] > win.size[0]` and raises `ValueError`
before any other side effect when the window is not taller than wide. -/
def set_polarizer_mode (mode : String) (W H : Nat) (cur : String) : PolarizerResult :=
  if mode = "none" then
    polarizerBranch cur "none"
      [.setDlp "RGB", .setBlueline false, .setFreeRun false, .updateCache]
  else if mode = "blueline" then
    polarizerBranch cur "sequential"
      [.setDlp "RGB", .setBlueline true, .setFreeRun false, .updateCache]
  else if mode = "freerun" then
    polarizerBranch cur "sequential"
      [.setDlp "RGB", .setBlueline false, .setFreeRun true, .updateCache]
  else if mode = "RB3D" then
    polarizerBranch cur "red/blue-anticross"
      [.setDlp "RB3D", .setBlueline false, .setFreeRun false, .updateCache]
  else if mode = "double-height" then
    if ¬ (W < H) then
      ⟨[], cur, some "The ProPixx controller is not set to double-height mode. Please adjust EDID using VPutil and restart ProPixx controller."⟩
    else
      polarizerBranch cur "top/bottom-anticross"
        [.setDlp "RGB", .setBlueline false, .setFreeRun false, .updateCache]
  else
    polarizerBranch cur mode
      [.setDlp "RGB", .setBlueline false, .setFreeRun false, .updateCache]

/-- C1: In every anticross compositing mode, for eye buffers holding uniform
colors `cL` and `cR` and left-eye cross-talk coefficient `k` (the stored
left-eye row being `[k,k,k]`, as produced by `setCrossTalk([k, kR])`), the
displayed left-eye pixel equals `max(cL - k*cR, 0)` per channel.
The seven displayed quantities are: the R, G, B channels of the
'top/bottom-anticross' / 'bottom/top-anticross' shader output when blipping the
left eye (which receives `crossTalk` row 0 at draw time), and, for each of the
four plain-anaglyph anticross shaders fed the pushed uniform
`(le.r, re.r)`, the output channel that the left eye's filter passes
('red/green' → R, 'green/red' → G, 'red/blue' → R, 'blue/red' → B). -/
theorem anticross_left_eye_cancellation
    (m : CrossTalkMat) (k cL cR aL aR : ℚ)
    (hk : m.le = ⟨k, k, k⟩) :
    [(fragCompensated (blipAnticrossUniform m "left") ⟨cL, cL, cL, aL⟩ ⟨cR, cR, cR, aR⟩).r,
     (fragCompensated (blipAnticrossUniform m "left") ⟨cL, cL, cL, aL⟩ ⟨cR, cR, cR, aR⟩).g,
     (fragCompensated (blipAnticrossUniform m "left") ⟨cL, cL, cL, aL⟩ ⟨cR, cR, cR, aR⟩).b,
     (fragRedGreenAnticross (m.le.r, m.re.r) ⟨cL, cL, cL, aL⟩ ⟨cR, cR, cR, aR⟩).r,
     (fragGreenRedAnticross (m.le.r, m.re.r) ⟨cL, cL, cL, aL⟩ ⟨cR, cR, cR, aR⟩).g,
     (fragRedBlueAnticross (m.le.r, m.re.r) ⟨cL, cL, cL, aL⟩ ⟨cR, cR, cR, aR⟩).r,
     (fragBlueRedAnticross (m.le.r, m.re.r) ⟨cL, cL, cL, aL⟩ ⟨cR, cR, cR, aR⟩).b] =
    List.replicate 7 (max (cL - k * cR) 0) := by
  simp [fragCompensated, blipAnticrossUniform, fragRedGreenAnticross,
    fragGreenRedAnticross, fragRedBlueAnticross, fragBlueRedAnticross, hk,
    List.replicate]

/-- Witness for C1: concrete instance with the matrix produced by
`setCrossTalk([0.1, 0.05])`, uniform colors 1/2 and 1/4. -/
theorem anticross_left_eye_cancellation_witness :
    (setCrossTalkMatrix (.vec (1/10) (1/20))).le = ⟨1/10, 1/10, 1/10⟩ ∧
    [(fragCompensated (blipAnticrossUniform (setCrossTalkMatrix (.vec (1/10) (1/20))) "left")
        ⟨1/2, 1/2, 1/2, 1⟩ ⟨1/4, 1/4, 1/4, 1⟩).r,
     (fragCompensated (blipAnticrossUniform (setCrossTalkMatrix (.vec (1/10) (1/20))) "left")
        ⟨1/2, 1/2, 1/2, 1⟩ ⟨1/4, 1/4, 1/4, 1⟩).g,
     (fragCompensated (blipAnticrossUniform (setCrossTalkMatrix (.vec (1/10) (1/20))) "left")
        ⟨1/2, 1/2, 1/2, 1⟩ ⟨1/4, 1/4, 1/4, 1⟩).b,
     (fragRedGreenAnticross ((setCrossTalkMatrix (.vec (1/10) (1/20))).le.r,
        (setCrossTalkMatrix (.vec (1/10) (1/20))).re.r) ⟨1/2, 1/2, 1/2, 1⟩ ⟨1/4, 1/4, 1/4, 1⟩).r,
     (fragGreenRedAnticross ((setCrossTalkMatrix (.vec (1/10) (1/20))).le.r,
        (setCrossTalkMatrix (.vec (1/10) (1/20))).re.r) ⟨1/2, 1/2, 1/2, 1⟩ ⟨1/4, 1/4, 1/4, 1⟩).g,
     (fragRedBlueAnticross ((setCrossTalkMatrix (.vec (1/10) (1/20))).le.r,
        (setCrossTalkMatrix (.vec (1/10) (1/20))).re.r) ⟨1/2, 1/2, 1/2, 1⟩ ⟨1/4, 1/4, 1/4, 1⟩).r,
     (fragBlueRedAnticross ((setCrossTalkMatrix (.vec (1/10) (1/20))).le.r,
        (setCrossTalkMatrix (.vec (1/10) (1/20))).re.r) ⟨1/2, 1/2, 1/2, 1⟩ ⟨1/4, 1/4, 1/4, 1⟩).b] =
    List.replicate 7 (max (1/2 - (1/10) * (1/4)) 0) :=
  ⟨by norm_num [setCrossTalkMatrix, clampRGB, clamp01, min_def, max_def],
   anticross_left_eye_cancellation (setCrossTalkMatrix (.vec (1/10) (1/20)))
     (1/10) (1/2) (1/4) 1 1
     (by norm_num [setCrossTalkMatrix, clampRGB, clamp01, min_def, max_def])⟩

/-- C4: a 2-vector input `[a,b]` to the crossTalk setter stores
`[[a,a,a],[b,b,b]]` with every element clamped to [0,1]; a 2×3 input stores
the elementwise-clamped input exactly. -/
theorem setCrossTalk_stored_matrix (a b : ℚ) (le re : RGB) :
    setCrossTalkMatrix (.vec a b) =
      ⟨⟨clamp01 a, clamp01 a, clamp01 a⟩, ⟨clamp01 b, clamp01 b, clamp01 b⟩⟩ ∧
    setCrossTalkMatrix (.mat le re) =
      ⟨⟨clamp01 le.r, clamp01 le.g, clamp01 le.b⟩,
       ⟨clamp01 re.r, clamp01 re.g, clamp01 re.b⟩⟩ :=
  ⟨rfl, rfl⟩

theorem clamp01_nonneg (x : ℚ) : 0 ≤ clamp01 x := le_max_left 0 _

theorem clamp01_le_one (x : ℚ) : clamp01 x ≤ 1 :=
  max_le (by norm_num) (min_le_left 1 x)

/-- C5: after any `setCrossTalk` call with any numeric input (including
out-of-range or negative values, and the `None` default), every one of the six
stored cross-talk coefficients lies in [0,1]. -/
theorem setCrossTalk_coeffs_in_unit_interval (input : CrossTalkInput) :
    (0 ≤ (setCrossTalkMatrix input).le.r ∧ (setCrossTalkMatrix input).le.r ≤ 1) ∧
    (0 ≤ (setCrossTalkMatrix input).le.g ∧ (setCrossTalkMatrix input).le.g ≤ 1) ∧
    (0 ≤ (setCrossTalkMatrix input).le.b ∧ (setCrossTalkMatrix input).le.b ≤ 1) ∧
    (0 ≤ (setCrossTalkMatrix input).re.r ∧ (setCrossTalkMatrix input).re.r ≤ 1) ∧
    (0 ≤ (setCrossTalkMatrix input).re.g ∧ (setCrossTalkMatrix input).re.g ≤ 1) ∧
    (0 ≤ (setCrossTalkMatrix input).re.b ∧ (setCrossTalkMatrix input).re.b ≤ 1) := by
  cases input <;>
    exact ⟨⟨clamp01_nonneg _, clamp01_le_one _⟩, ⟨clamp01_nonneg _, clamp01_le_one _⟩,
      ⟨clamp01_nonneg _, clamp01_le_one _⟩, ⟨clamp01_nonneg _, clamp01_le_one _⟩,
      ⟨clamp01_nonneg _, clamp01_le_one _⟩, ⟨clamp01_nonneg _, clamp01_le_one _⟩⟩

/-- C6: every `setCrossTalk` call immediately pushes, into each of the four
plain-anaglyph anticross programs, the 2-component uniform
`(stored[0][0], stored[1][0])` — only the R-channel coefficient of each eye
(for a 2×3 input the pushed pair is `(clamp01 le.r, clamp01 re.r)`; the G and
B entries of the input never appear in any pushed value) — while the
split-screen anticross modes receive the active eye's full 3-component stored
row at draw time on each blip. -/
theorem setCrossTalk_uniform_pushes (a b : ℚ) (le re : RGB) (m : CrossTalkMat) :
    setCrossTalkUniformWrites (setCrossTalkMatrix (.mat le re)) =
      [("red/green-anticross", (clamp01 le.r, clamp01 re.r)),
       ("green/red-anticross", (clamp01 le.r, clamp01 re.r)),
       ("red/blue-anticross", (clamp01 le.r, clamp01 re.r)),
       ("blue/red-anticross", (clamp01 le.r, clamp01 re.r))] ∧
    setCrossTalkUniformWrites (setCrossTalkMatrix (.vec a b)) =
      [("red/green-anticross", (clamp01 a, clamp01 b)),
       ("green/red-anticross", (clamp01 a, clamp01 b)),
       ("red/blue-anticross", (clamp01 a, clamp01 b)),
       ("blue/red-anticross", (clamp01 a, clamp01 b))] ∧
    blipAnticrossUniform m "left" = m.le ∧
    blipAnticrossUniform m "right" = m.re :=
  ⟨rfl, rfl, rfl, rfl⟩

/-- C2 counterexample: at window size W=3, H=2, the two viewport partitions of
a 'left/right' flip both have width 1 = W//2, not widths W//2 = 1 and
W - W//2 = 2 as the claim states (and they cover only 2 of the 3 columns). -/
theorem leftright_widths_counterexample :
    viewportWidths (flipTrace "left/right" 3 2 0 0 0 0 false) = [1, 1] ∧
    ¬ viewportWidths (flipTrace "left/right" 3 2 0 0 0 0 false) =
        [(3 : Int) / 2, 3 - 3 / 2] := by
  decide

/-- C2 (amended): a flip in 'left/right' mode composites exactly two viewport
partitions, both of width W//2, starting at x=0 and x=W//2 (at zero fixation
adjustment); they never overlap, and they tile the window width exactly if and
only if W is even (odd widths lose one column). -/
theorem leftright_viewport_partition (W H : Nat) :
    flipTrace "left/right" W H 0 0 0 0 false =
      .ok [Ev.viewport 0 0 ((W / 2 : Nat) : Int) (H : Int), Ev.blip "left",
           Ev.viewport ((W / 2 : Nat) : Int) 0 ((W / 2 : Nat) : Int) (H : Int),
           Ev.blip "right", Ev.swapPrimary] ∧
    (W / 2 + W / 2 = W ↔ W % 2 = 0) := by
  refine ⟨?_, by omega⟩
  rfl

/-- C3: the stereoMode setter raises exactly when the requested or the current
mode is 'quad-buffered' or 'dual-head'; in every other case the assignment
succeeds and the stored (getter-visible) mode is the requested one. -/
theorem stereoMode_setter_spec (cur req : String) :
    ((∃ e, setStereoMode cur req = .error e) ↔
      (req = "quad-buffered" ∨ req = "dual-head" ∨
       cur = "quad-buffered" ∨ cur = "dual-head")) ∧
    (req ≠ "quad-buffered" → req ≠ "dual-head" →
     cur ≠ "quad-buffered" → cur ≠ "dual-head" →
     setStereoMode cur req = .ok req) := by
  unfold setStereoMode
  constructor
  · by_cases h1 : req = "quad-buffered" ∨ cur = "quad-buffered" <;>
      by_cases h2 : req = "dual-head" ∨ cur = "dual-head" <;>
      simp [h1, h2] <;> tauto
  · intro a b c d
    simp [a, b, c, d]

/-- Witness for C3: switching from 'left/right' to 'sequential' succeeds. -/
theorem stereoMode_setter_spec_witness :
    setStereoMode "left/right" "sequential" = .ok "sequential" :=
  (stereoMode_setter_spec "left/right" "sequential").2
    (by decide) (by decide) (by decide) (by decide)

/-- C7: one flip in 'sequential' mode with a registered callback produces, for
any window size and fixation adjustment, exactly the trace
blip left, sync line left, swap, callback left, blip right, sync line right,
swap, callback right — so the callback fires exactly twice ('left' then
'right'), the physical swap occurs exactly twice, and each callback is
preceded by the swap for its eye. -/
theorem flip_sequential_callback_swap_order (W H : Nat) (offX offY verg tilt : Int) :
    flipTrace "sequential" W H offX offY verg tilt true =
      .ok [Ev.blip "left", Ev.blueLine "left", Ev.swapPrimary, Ev.callback "left",
           Ev.blip "right", Ev.blueLine "right", Ev.swapPrimary, Ev.callback "right"] ∧
    List.filter (fun e => match e with | Ev.callback _ => true | _ => false)
      [Ev.blip "left", Ev.blueLine "left", Ev.swapPrimary, Ev.callback "left",
       Ev.blip "right", Ev.blueLine "right", Ev.swapPrimary, Ev.callback "right"] =
      [Ev.callback "left", Ev.callback "right"] ∧
    List.filter (fun e => match e with | Ev.swapPrimary => true | _ => false)
      [Ev.blip "left", Ev.blueLine "left", Ev.swapPrimary, Ev.callback "left",
       Ev.blip "right", Ev.blueLine "right", Ev.swapPrimary, Ev.callback "right"] =
      [Ev.swapPrimary, Ev.swapPrimary] := by
  refine ⟨rfl, by decide, by decide⟩

/-- C8: requesting the 'double-height' device configuration on a window whose
width is not smaller than its height raises a ValueError, and on that path no
device register write is issued and the stereo mode is left unchanged. -/
theorem double_height_requires_taller_than_wide (W H : Nat) (cur : String)
    (h : H ≤ W) :
    (set_polarizer_mode "double-height" W H cur).error.isSome = true ∧
    (set_polarizer_mode "double-height" W H cur).acts = [] ∧
    (set_polarizer_mode "double-height" W H cur).winMode = cur := by
  unfold set_polarizer_mode
  have hlt : ¬ (W < H) := by omega
  simp [hlt]

/-- Witness for C8: an 800×600 window in 'left/right' mode. -/
theorem double_height_requires_taller_than_wide_witness :
    (set_polarizer_mode "double-height" 800 600 "left/right").error.isSome = true ∧
    (set_polarizer_mode "double-height" 800 600 "left/right").acts = [] ∧
    (set_polarizer_mode "double-height" 800 600 "left/right").winMode = "left/right" :=
  double_height_requires_taller_than_wide 800 600 "left/right" (by omega)

/-- C9 counterexample: in 'none' mode, `setBuffer` with the unknown selector
"foo" raises no error — it silently binds the default framebuffer — even
though "foo" is neither 'left' nor 'right'. -/
theorem setBuffer_none_counterexample :
    setBuffer "none" "foo" = .ok BufferAction.bindDefault ∧
    "foo" ≠ "left" ∧ "foo" ≠ "right" :=
  ⟨rfl, by decide, by decide⟩

/-- C9 (amended): in every FBO-based stereo mode (any mode other than 'none'
and 'quad-buffered'), `setBuffer` with a selector other than 'left' or 'right'
raises a ValueError synchronously; in 'none' mode any selector is silently
accepted (the default framebuffer is bound), and in 'quad-buffered' mode the
selector is passed through to the base class. -/
theorem setBuffer_unknown_selector (mode buffer : String) :
    (mode ≠ "none" → mode ≠ "quad-buffered" →
     buffer ≠ "left" → buffer ≠ "right" →
     setBuffer mode buffer =
       .error ("Unknown buffer " ++ buffer ++ " requested in StereoWindow.setBuffer")) ∧
    setBuffer "none" buffer = .ok .bindDefault ∧
    setBuffer "quad-buffered" buffer = .ok (.superSetBuffer buffer) := by
  refine ⟨?_, by simp [setBuffer], by simp [setBuffer]⟩
  intro h1 h2 h3 h4
  simp [setBuffer, h1, h2, h3, h4]

/-- Witness for C9 (amended): mode 'left/right', selector "foo" errors. -/
theorem setBuffer_unknown_selector_witness :
    setBuffer "left/right" "foo" =
      .error ("Unknown buffer " ++ "foo" ++ " requested in StereoWindow.setBuffer") :=
  (setBuffer_unknown_selector "left/right" "foo").1
    (by decide) (by decide) (by decide) (by decide)

/-- C10 counterexample: assigning the unsupported mode string "foo" from
'left/right' succeeds (the setter does not validate), but the subsequent
`flip()` does NOT fail with a shader-table lookup: no compositing branch
matches, so the flip completes normally with only the physical buffer swap
and no blip ever reaches the shader table. -/
theorem unknown_mode_flip_counterexample :
    setStereoMode "left/right" "foo" = .ok "foo" ∧
    flipTrace "foo" 800 600 0 0 0 0 false = .ok [Ev.swapPrimary] :=
  ⟨rfl, rfl⟩

/-- C10 (amended): the stereoMode setter performs no validation of the
requested mode name — for any current non-fixed mode, assigning any string
other than 'quad-buffered' and 'dual-head' succeeds and is returned by the
getter — but an unsupported mode never surfaces as a failed shader-table
lookup in `flip()`: no compositing branch matches such a string, so flip
performs no blip (hence no shader lookup) and completes with only the
physical buffer swap. -/
theorem stereoMode_no_validation (cur m : String) (W H : Nat)
    (offX offY verg tilt : Int) (cb : Bool)
    (h1 : m ≠ "quad-buffered") (h2 : m ≠ "dual-head")
    (h3 : cur ≠ "quad-buffered") (h4 : cur ≠ "dual-head")
    (h5 : m ∉ stereoShaderKeys) (h6 : m ≠ "none") :
    setStereoMode cur m = .ok m ∧
    flipTrace m W H offX offY verg tilt cb = .ok [Ev.swapPrimary] := by
  have hkeys := h5
  simp [stereoShaderKeys] at hkeys
  obtain ⟨k1, k2, k3, k4, k5, k6, k7, k8, k9, k10, k11, k12, k13, k14, k15, k16, k17⟩ := hkeys
  constructor
  · simp [setStereoMode, h1, h2, h3, h4]
  · simp [flipTrace, h6, h1, k10, k12, k13, k14, k15, k16, k17, k1, k2, k3, k4,
      k5, k6, k7, k8, k9, k11]
    rfl

/-- Witness for C10 (amended): current mode 'left/right', requested "foo". -/
theorem stereoMode_no_validation_witness :
    setStereoMode "left/right" "foo" = .ok "foo" ∧
    flipTrace "foo" 640 480 0 0 0 0 true = .ok [Ev.swapPrimary] :=
  stereoMode_no_validation "left/right" "foo" 640 480 0 0 0 0 true
    (by decide) (by decide) (by decide) (by decide) (by decide) (by decide)
